import Mathlib

/-!
# ESPresense `main.h`: update gate, pull update, failsafe reset, discovery

A shallow embedding of the lifecycle code of `src/main.h`:

* the OTA event handlers registered by `configureOTA`,
* the pull update `firmwareUpdate`,
* the failsafe storage reset `spiffsInit`,
* the boot classification `resetReason`,
* the discovery publishes `commonDiscovery` and `sendDiscoveryBMESensor`.

Globals of the C++ file become fields of an explicit state, calls into the
libraries (Serial, Display, HTTP, MQTT, SPIFFS) become entries of an effect
list, and what the environment answers (uptime, HTTP status, broker replies,
button level, clock) is an explicit input.
-/

namespace ESPresense

/-! ## Effects and state -/

/-- An argument of a `printf`-style call. -/
inductive PrintfArg
  | int (n : Int)
  | str (s : String)
  deriving DecidableEq

/-- Library calls made by the update code, in program order. -/
inductive Effect
  | serialPrintln (s : String)
  | serialPrintf (fmt : String) (args : List PrintfArg)
  | setDisable (b : Bool)
  | displayUpdateEnd
  | displayUpdateProgress (progress : Nat)
  | clientSetInsecure
  | httpBegin (url : String)
  | httpSendRequest (method : String)
  | httpEnd
  | setLedPin (pin level : Nat)
  | setFollowRedirects
  | httpUpdate (url : String)
  | logE (msg : String)
  | logI (msg : String)
  | logW (msg : String)
  deriving DecidableEq

/-- The globals the update code reads and writes: `updateInProgress`, the
last value handed to `fingerprints.setDisable` (the sensing-disable flag), and
the function-local static `lastFirmwareCheck` of `firmwareUpdate`. -/
structure State where
  updateInProgress : Bool
  sensingDisabled : Bool
  lastFirmwareCheck : Int
  deriving DecidableEq

/-- State at boot: `updateInProgress = false`, nothing passed to `setDisable`
yet, `lastFirmwareCheck = 0`. -/
def State.boot : State :=
  { updateInProgress := false, sensingDisabled := false, lastFirmwareCheck := 0 }

/-- The call `fingerprints.setDisable(updateInProgress)`. -/
def setDisableFromFlag (s : State) : State :=
  { s with sensingDisabled := s.updateInProgress }

/-! ## `configureOTA`: the four event handlers -/

/-- Error codes of `ota_error_t` (ArduinoOTA). -/
def OTA_AUTH_ERROR : Nat := 0
/-- Second error code of `ota_error_t`. -/
def OTA_BEGIN_ERROR : Nat := 1
/-- Third error code of `ota_error_t`. -/
def OTA_CONNECT_ERROR : Nat := 2
/-- Fourth error code of `ota_error_t`. -/
def OTA_RECEIVE_ERROR : Nat := 3
/-- Fifth error code of `ota_error_t`. -/
def OTA_END_ERROR : Nat := 4

/-- The `onStart` lambda. -/
def onStart (s : State) : State × List Effect :=
  let s1 := { s with updateInProgress := true }
  (setDisableFromFlag s1, [Effect.serialPrintln "OTA Start", Effect.setDisable s1.updateInProgress])

/-- The `onEnd` lambda. -/
def onEnd (s : State) : State × List Effect :=
  let s1 := { s with updateInProgress := false }
  (setDisableFromFlag s1,
    [Effect.setDisable s1.updateInProgress, Effect.displayUpdateEnd,
     Effect.serialPrintln "\n\rEnd"])

/-- The `onProgress` lambda: `progress / (total / 100)` on unsigned integers,
stored in a byte. The division traps when `total < 100`; that is `none`. -/
def onProgress (progress total : Nat) (s : State) : Option (State × List Effect) :=
  if total / 100 = 0 then none
  else
    let percent := (progress / (total / 100)) % 256
    some (s, [Effect.serialPrintf "Progress: %u\r\n" [PrintfArg.int percent],
              Effect.displayUpdateProgress progress])

/-- The message the `onError` lambda prints for an error code, if any. -/
def onErrorMessage (error : Nat) : List Effect :=
  if error = OTA_AUTH_ERROR then [Effect.serialPrintln "Auth Failed"]
  else if error = OTA_BEGIN_ERROR then [Effect.serialPrintln "Begin Failed"]
  else if error = OTA_CONNECT_ERROR then [Effect.serialPrintln "Connect Failed"]
  else if error = OTA_RECEIVE_ERROR then [Effect.serialPrintln "Receive Failed"]
  else if error = OTA_END_ERROR then [Effect.serialPrintln "End Failed"]
  else []

/-- The `onError` lambda: prints, then clears `updateInProgress`. It makes no
call to `fingerprints.setDisable`. -/
def onError (error : Nat) (s : State) : State × List Effect :=
  ({ s with updateInProgress := false },
    Effect.serialPrintf "Error[%u]: " [PrintfArg.int error] :: onErrorMessage error)

/-! ## `firmwareUpdate` -/

/-- Build-time macros used by `firmwareUpdate`; `VERSION` and `LED_BUILTIN`
may be undefined. Their definitions are outside `main.h`. -/
structure Build where
  FIRMWARE : String
  VERSION : Option String
  CHECK_FOR_UPDATES_INTERVAL : Int
  LED_BUILTIN : Option (Nat × Nat)

/-- Values of `t_httpUpdate_return`. -/
inductive HTTPUpdateResult
  | HTTP_UPDATE_FAILED
  | HTTP_UPDATE_NO_UPDATES
  | HTTP_UPDATE_OK
  deriving DecidableEq

/-- What one run of `firmwareUpdate` reads from its surroundings: the global
`autoUpdate`, `getUptimeSeconds()` (as stored in the `long uptime`; both it and
`lastFirmwareCheck` stay in `[0, 2^31)`, so their difference does not wrap),
the result of `http.begin`, the status of the `HEAD` request, the `Location`
of the answer, and the result of `httpUpdate.update`. -/
structure FirmwareEnv where
  autoUpdate : Bool
  uptime : Int
  beginOk : Bool
  httpCode : Int
  location : String
  updateRet : HTTPUpdateResult

/-- C `strstr`: offset of the first occurrence of `sub` in `s`. -/
def strstr : List Char → List Char → Option Nat
  | [], sub => if sub = [] then some 0 else none
  | c :: cs, sub =>
    if sub.isPrefixOf (c :: cs) then some 0
    else (strstr cs sub).map (· + 1)

/-- Arduino `String::indexOf(const String &)`: `-1` when the receiver is empty
or `strstr` finds nothing, else the offset of the first occurrence. -/
def indexOf (s sub : String) : Int :=
  if s.data.length = 0 then -1
  else
    match strstr s.data sub.data with
    | none => -1
    | some i => (i : Int)

/-- The URL built by `Sprintf`. -/
def firmwareUrl (b : Build) : String :=
  "https://github.com/rbarreiros/ESPresense/releases/latest/download/" ++ b.FIRMWARE ++ ".bin"

/-- The condition of the `#ifdef VERSION` block under which the run stops
with "Not updating". -/
def notUpdating (version : String) (httpCode : Int) (location : String) : Bool :=
  decide (httpCode < 300) || decide (httpCode > 400) || decide (indexOf location version > 0)

/-- Log line of the `switch (ret)`. -/
def updateLog : HTTPUpdateResult → Effect
  | .HTTP_UPDATE_FAILED => Effect.logE "Http Update Failed (Error=%d): %s"
  | .HTTP_UPDATE_NO_UPDATES => Effect.logI "No Update!"
  | .HTTP_UPDATE_OK => Effect.logW "Update OK!"

/-- The tail of `firmwareUpdate` from `updateInProgress = true` on. -/
def pullTransfer (b : Build) (e : FirmwareEnv) (s : State) : State × List Effect :=
  let s1 := setDisableFromFlag { s with updateInProgress := true }
  let led : List Effect :=
    match b.LED_BUILTIN with
    | some (pin, level) => [Effect.setLedPin pin level]
    | none => []
  ({ s1 with updateInProgress := false },
    [Effect.setDisable true] ++ led ++
    [Effect.setFollowRedirects, Effect.httpUpdate (firmwareUrl b), updateLog e.updateRet])

/-- One run of `firmwareUpdate`. -/
def firmwareUpdate (b : Build) (e : FirmwareEnv) (s : State) : State × List Effect :=
  if !e.autoUpdate then (s, [])
  else if e.uptime - s.lastFirmwareCheck < b.CHECK_FOR_UPDATES_INTERVAL then (s, [])
  else
    let s1 := { s with lastFirmwareCheck := e.uptime }
    let pre := [Effect.clientSetInsecure, Effect.httpBegin (firmwareUrl b)]
    if !e.beginOk then (s1, pre)
    else
      match b.VERSION with
      | some version =>
        if notUpdating version e.httpCode e.location then
          (s1, pre ++ [Effect.httpSendRequest "HEAD",
                       Effect.serialPrintf "Not updating from (sc=%d): %s\n"
                         [PrintfArg.int e.httpCode, PrintfArg.str e.location],
                       Effect.httpEnd])
        else
          let r := pullTransfer b e s1
          (r.1, pre ++ [Effect.httpSendRequest "HEAD",
                        Effect.serialPrintf "Updating from (sc=%d): %s\n"
                          [PrintfArg.int e.httpCode, PrintfArg.str e.location]] ++ r.2)
      | none =>
        let r := pullTransfer b e s1
        (r.1, pre ++ r.2)

/-- Whether an effect is a call that goes to the network. -/
def Effect.isNetwork : Effect → Bool
  | .httpBegin _ => true
  | .httpSendRequest _ => true
  | .httpUpdate _ => true
  | _ => false

/-- Whether an effect is the full pull transfer `httpUpdate.update`. -/
def Effect.isTransfer : Effect → Bool
  | .httpUpdate _ => true
  | _ => false

/-- Uptimes of the runs, in a sequence of `firmwareUpdate` runs, that made a
network call. -/
def networkTimes (b : Build) : State → List FirmwareEnv → List Int
  | _, [] => []
  | s, e :: es =>
    let r := firmwareUpdate b e s
    if r.2.any Effect.isNetwork then e.uptime :: networkTimes b r.1 es
    else networkTimes b r.1 es

/-! ## `spiffsInit` -/

/-- What `spiffsInit` reads: whether the `k`-th `digitalRead(BUTTON)` equals
`BUTTON_PRESSED`, and the value of the `k`-th call of `millis()`. -/
structure Pins where
  pressed : Nat → Bool
  millis : Nat → Nat

/-- Library calls made by `spiffsInit`. -/
inductive BootEffect
  | pinModeInput
  | displayConnecting
  | displayErasing
  | spiffsFormat
  | spiffsBegin (formatOnFail : Bool)
  | displayErased
  deriving DecidableEq

/-- Locals of `spiffsInit` at the head of the `while` loop, with the number
of `digitalRead` and `millis` calls made so far. -/
structure Debounce where
  reads : Nat
  ticks : Nat
  lastDebounceTime : Nat
  flashes : Nat
  effects : List BootEffect

/-- What a finished `spiffsInit` leaves: the final `flashes` and its calls. -/
structure SpiffsResult where
  flashes : Nat
  effects : List BootEffect
  deriving DecidableEq

/-- The constant `debounceDelay`. -/
def debounceDelay : Nat := 250

/-- The 32-bit `unsigned long` value returned by the `k`-th `millis()`. -/
def Pins.millis32 (p : Pins) (k : Nat) : Nat := p.millis k % 2 ^ 32

/-- The `while (digitalRead(BUTTON) == BUTTON_PRESSED)` loop; one unit of fuel
per evaluation of the loop condition. `millis() - lastDebounceTime` is an
`unsigned long` subtraction, so it is taken modulo `2^32`. -/
def spiffsLoop (p : Pins) : Nat → Debounce → Option SpiffsResult
  | 0, _ => none
  | fuel + 1, d =>
    if p.pressed d.reads then
      if (p.millis32 d.ticks + 2 ^ 32 - d.lastDebounceTime) % 2 ^ 32 > debounceDelay then
        let eff := d.effects ++ [BootEffect.displayConnecting]
        let last := p.millis32 (d.ticks + 1)
        let flashes := d.flashes + 1
        if flashes > 10 then
          some { flashes := flashes,
                 effects := eff ++ [BootEffect.displayErasing, BootEffect.spiffsFormat,
                                    BootEffect.spiffsBegin true, BootEffect.displayErased] }
        else
          spiffsLoop p fuel
            { reads := d.reads + 1, ticks := d.ticks + 2, lastDebounceTime := last,
              flashes := flashes, effects := eff }
      else
        spiffsLoop p fuel { d with reads := d.reads + 1, ticks := d.ticks + 1 }
    else
      some { flashes := d.flashes, effects := d.effects ++ [BootEffect.spiffsBegin true] }

/-- The function `spiffsInit` of a build with `BUTTON` defined. -/
def spiffsInit (p : Pins) (fuel : Nat) : Option SpiffsResult :=
  spiffsLoop p fuel
    { reads := 0, ticks := 1, lastDebounceTime := p.millis32 0, flashes := 0,
      effects := [BootEffect.pinModeInput] }

/-! ## `resetReason` -/

/-- The enumeration `RESET_REASON` that `resetReason` takes. Its declaration
is in the ESP32 platform header `rom/rtc.h`, which is not among the sources of
the repository; the enumerators are the sixteen of that header, in its order.
The first one, `NO_MEAN`, is not named by the `switch` of `resetReason`. -/
inductive RESET_REASON
  | NO_MEAN
  | POWERON_RESET
  | SW_RESET
  | OWDT_RESET
  | DEEPSLEEP_RESET
  | SDIO_RESET
  | TG0WDT_SYS_RESET
  | TG1WDT_SYS_RESET
  | RTCWDT_SYS_RESET
  | INTRUSION_RESET
  | TGWDT_CPU_RESET
  | SW_CPU_RESET
  | RTCWDT_CPU_RESET
  | EXT_CPU_RESET
  | RTCWDT_BROWN_OUT_RESET
  | RTCWDT_RTC_RESET
  deriving DecidableEq

/-- The integer value of each enumerator in `rom/rtc.h`. For the fifteen
enumerators the `switch` names they are the values its comments give
(1, 3, 4, ..., 16; there is no enumerator with value 2). -/
def RESET_REASON.code : RESET_REASON → Nat
  | .NO_MEAN => 0
  | .POWERON_RESET => 1
  | .SW_RESET => 3
  | .OWDT_RESET => 4
  | .DEEPSLEEP_RESET => 5
  | .SDIO_RESET => 6
  | .TG0WDT_SYS_RESET => 7
  | .TG1WDT_SYS_RESET => 8
  | .RTCWDT_SYS_RESET => 9
  | .INTRUSION_RESET => 10
  | .TGWDT_CPU_RESET => 11
  | .SW_CPU_RESET => 12
  | .RTCWDT_CPU_RESET => 13
  | .EXT_CPU_RESET => 14
  | .RTCWDT_BROWN_OUT_RESET => 15
  | .RTCWDT_RTC_RESET => 16

/-- The function `resetReason`: the `switch` over the raw reset code, whose
`case` labels are enumerators of `RESET_REASON`. The argument is the raw
integer, since a C enumeration object can hold a value that is no enumerator. -/
def resetReason (reason : Nat) : String :=
  if reason = RESET_REASON.POWERON_RESET.code then "PowerOn"
  else if reason = RESET_REASON.SW_RESET.code then "Sofware"
  else if reason = RESET_REASON.OWDT_RESET.code then "LegacyWdt"
  else if reason = RESET_REASON.DEEPSLEEP_RESET.code then "DeepSleep"
  else if reason = RESET_REASON.SDIO_RESET.code then "Sdio"
  else if reason = RESET_REASON.TG0WDT_SYS_RESET.code then "Tg0WdtSys"
  else if reason = RESET_REASON.TG1WDT_SYS_RESET.code then "Tg1WdtSys"
  else if reason = RESET_REASON.RTCWDT_SYS_RESET.code then "RtcWdtSys"
  else if reason = RESET_REASON.INTRUSION_RESET.code then "Intrusion"
  else if reason = RESET_REASON.TGWDT_CPU_RESET.code then "TgWdtCpu"
  else if reason = RESET_REASON.SW_CPU_RESET.code then "SoftwareCpu"
  else if reason = RESET_REASON.RTCWDT_CPU_RESET.code then "RtcWdtCpu"
  else if reason = RESET_REASON.EXT_CPU_RESET.code then "ExtCpu"
  else if reason = RESET_REASON.RTCWDT_BROWN_OUT_RESET.code then "RtcWdtBrownOut"
  else if reason = RESET_REASON.RTCWDT_RTC_RESET.code then "RtcWdtRtc"
  else "Unknown"

/-! ## Discovery publishes -/

/-- JSON values as the discovery code builds them. -/
inductive JsonValue
  | str (s : String)
  | bool (b : Bool)
  | raw (s : String)
  | arr (items : List JsonValue)
  | obj (members : List (String × JsonValue))

/-- Members of a `JsonDocument` whose root is an object, in insertion order. -/
abbrev JsonDocument := List (String × JsonValue)

/-- The assignment `doc[key] = v`: replaces the member if present, else appends it. -/
def setMember (key : String) (v : JsonValue) : JsonDocument → JsonDocument
  | [] => [(key, v)]
  | (k, w) :: rest => if k = key then (key, v) :: rest else (k, w) :: setMember key v rest

/-- The assignment `doc[outer][inner] = v`, creating the object `doc[outer]` when missing. -/
def setNested (outer inner : String) (v : JsonValue) (doc : JsonDocument) : JsonDocument :=
  let cur : JsonDocument :=
    match doc.lookup outer with
    | some (JsonValue.obj ms) => ms
    | _ => []
  setMember outer (JsonValue.obj (setMember inner v cur)) doc

/-- Globals and platform values read by the discovery code, with the
serialisation `serializeJson` into the 1200-byte buffer. -/
structure Device where
  room : String
  roomsTopic : String
  discovery : Bool
  macAddress : String
  chipModel : String
  serializeJson : JsonDocument → String

/-- One call of `mqttClient.publish(topic, 0, true, payload)` and whether the
client accepted it (a non-zero packet id). -/
structure Attempt where
  topic : String
  payload : String
  accepted : Bool
  deriving DecidableEq

/-- A broker behaviour: given the attempts made so far and the topic and
payload of the next one, whether that one is accepted. -/
abbrev Broker := List Attempt → String → String → Bool

/-- The call `mqttClient.publish(topic, 0, true, payload)`. -/
def publish (br : Broker) (topic payload : String) (log : List Attempt) :
    Bool × List Attempt :=
  let ok := br log topic payload
  (ok, log ++ [{ topic := topic, payload := payload, accepted := ok }])

/-- The loop `for (int i = 0; i < 10; i++)` of `commonDiscovery` with `n`
iterations left; `delay(50)` between attempts changes no state. -/
def publishRetry (br : Broker) (topic payload : String) : Nat → List Attempt → Bool × List Attempt
  | 0, log => (false, log)
  | n + 1, log =>
    let r := publish br topic payload log
    if r.1 then (true, r.2) else publishRetry br topic payload n r.2

/-- The `dev` block `commonDiscovery` adds to the document. -/
def addDeviceBlock (dev : Device) (doc : JsonDocument) : JsonDocument :=
  doc
  |> setNested "dev" "ids" (JsonValue.arr [JsonValue.str dev.macAddress])
  |> setNested "dev" "cns"
      (JsonValue.arr [JsonValue.raw ("[\"MAC\",\"" ++ dev.macAddress ++ "\"]")])
  |> setNested "dev" "name" (JsonValue.str ("ESPresense " ++ dev.room))
  |> setNested "dev" "sa" (JsonValue.str dev.room)
  |> setNested "dev" "mdl" (JsonValue.str dev.chipModel)

/-- The contents of `buffer` after `serializeJson(*doc, buffer)`. -/
def discoveryBuffer (dev : Device) (doc : JsonDocument) : String :=
  dev.serializeJson (addDeviceBlock dev doc)

/-- The function `commonDiscovery`. -/
def commonDiscovery (dev : Device) (br : Broker) (doc : JsonDocument) (discoveryTopic : String)
    (log : List Attempt) : Bool × List Attempt :=
  publishRetry br discoveryTopic (discoveryBuffer dev doc) 10 log

/-- The document `sendDiscoveryBMESensor` fills before each publish. -/
def bmeDocument (dev : Device) (unit devCla name uid template : String) : JsonDocument :=
  ([] : JsonDocument)
  |> setMember "~" (JsonValue.str dev.roomsTopic)
  |> setMember "unit_of_meas" (JsonValue.str unit)
  |> setMember "dev_cla" (JsonValue.str devCla)
  |> setMember "stat_t" (JsonValue.str "~/weather")
  |> setMember "name" (JsonValue.str ("ESPresence " ++ dev.room ++ name))
  |> setMember "unique_id" (JsonValue.str (dev.macAddress ++ uid))
  |> setMember "avty_t" (JsonValue.str "~/status")
  |> setMember "value_template" (JsonValue.str template)

/-- Discovery topic of the temperature sensor. -/
def temperatureTopic (room : String) : String :=
  "homeassistant/sensor/espresence_" ++ room ++ "/temperature/config"

/-- Discovery topic of the humidity sensor. -/
def humidityTopic (room : String) : String :=
  "homeassistant/sensor/espresence_" ++ room ++ "/humidity/config"

/-- Discovery topic of the pressure sensor. -/
def pressureTopic (room : String) : String :=
  "homeassistant/sensor/espresence_" ++ room ++ "/pressure/config"

/-- The function `sendDiscoveryBMESensor`; `ret &= x` evaluates `x` and stores
`ret && x`. -/
def sendDiscoveryBMESensor (dev : Device) (br : Broker) (log : List Attempt) :
    Bool × List Attempt :=
  if !dev.discovery then (true, log)
  else
    let ret := false
    let r1 := commonDiscovery dev br
      (bmeDocument dev "°C" "temperature" " Temperature" "_temp"
        "\x7b\x7b value_json.temperature \x7d\x7d")
      (temperatureTopic dev.room) log
    let ret := ret && r1.1
    let r2 := commonDiscovery dev br
      (bmeDocument dev "%" "humidity" " Humidity" "_hum"
        "\x7b\x7b value_json.humidity \x7d\x7d")
      (humidityTopic dev.room) r1.2
    let ret := ret && r2.1
    let r3 := commonDiscovery dev br
      (bmeDocument dev "Pa" "pressure" " Pressure" "_pres"
        "\x7b\x7b value_json.pressure \x7d\x7d")
      (pressureTopic dev.room) r2.2
    let ret := ret && r3.1
    (ret, r3.2)

/-! ## Trace shape used to state the result of `spiffsInit` -/

/-- The calls a finished `spiffsInit` is shown to have made, as a function of
the final `flashes`: `pinMode`, one `Display.connecting` per counted sample,
then the erase sequence when `flashes > 10` and the plain mount otherwise. -/
def spiffsTrace (flashes : Nat) : List BootEffect :=
  BootEffect.pinModeInput :: List.replicate flashes BootEffect.displayConnecting ++
    (if flashes > 10 then
      [BootEffect.displayErasing, BootEffect.spiffsFormat, BootEffect.spiffsBegin true,
       BootEffect.displayErased]
    else [BootEffect.spiffsBegin true])

/-! ## Concrete inputs used by the closed theorems -/

/-- A build with `VERSION` defined as `v1.0`, checking every 300 seconds. -/
def sampleBuild : Build :=
  { FIRMWARE := "esp32", VERSION := some "v1.0", CHECK_FOR_UPDATES_INTERVAL := 300,
    LED_BUILTIN := none }

/-- A run at uptime 600 whose probe is redirected (302) to a `v2.0` artifact. -/
def newerRelease : FirmwareEnv :=
  { autoUpdate := true, uptime := 600, beginOk := true, httpCode := 302,
    location := "https://github.com/rbarreiros/ESPresense/releases/download/v2.0/esp32.bin",
    updateRet := HTTPUpdateResult.HTTP_UPDATE_FAILED }

/-- A run at uptime 600 whose probe is answered with status 400 and no `Location`. -/
def badRequest : FirmwareEnv :=
  { autoUpdate := true, uptime := 600, beginOk := true, httpCode := 400,
    location := "", updateRet := HTTPUpdateResult.HTTP_UPDATE_FAILED }

/-- A run at uptime 600 whose probe is redirected (302) to a relative target
that starts with the running version. -/
def sameVersionAtStart : FirmwareEnv :=
  { autoUpdate := true, uptime := 600, beginOk := true, httpCode := 302,
    location := "v1.0/esp32.bin", updateRet := HTTPUpdateResult.HTTP_UPDATE_FAILED }

/-- A run at uptime 100, before the first interval has elapsed. -/
def tooEarly : FirmwareEnv :=
  { autoUpdate := true, uptime := 100, beginOk := true, httpCode := 302,
    location := "https://github.com/rbarreiros/ESPresense/releases/download/v2.0/esp32.bin",
    updateRet := HTTPUpdateResult.HTTP_UPDATE_OK }

/-- A run at uptime 600 in which `http.begin` fails. -/
def beginFails : FirmwareEnv :=
  { autoUpdate := true, uptime := 600, beginOk := false, httpCode := 0,
    location := "", updateRet := HTTPUpdateResult.HTTP_UPDATE_FAILED }

/-- A run at uptime 600 whose probe is redirected (302) to the artifact of the
running version `v1.0`. -/
def alreadyCurrent : FirmwareEnv :=
  { autoUpdate := true, uptime := 600, beginOk := true, httpCode := 302,
    location := "https://github.com/rbarreiros/ESPresense/releases/download/v1.0/esp32.bin",
    updateRet := HTTPUpdateResult.HTTP_UPDATE_NO_UPDATES }

/-- A run at uptime 700, 100 seconds after `newerRelease`. -/
def soonAfter : FirmwareEnv :=
  { autoUpdate := true, uptime := 700, beginOk := true, httpCode := 302,
    location := "https://github.com/rbarreiros/ESPresense/releases/download/v2.0/esp32.bin",
    updateRet := HTTPUpdateResult.HTTP_UPDATE_NO_UPDATES }

/-- A run at uptime 900, 300 seconds after `newerRelease`. -/
def oneIntervalLater : FirmwareEnv :=
  { autoUpdate := true, uptime := 900, beginOk := true, httpCode := 200,
    location := "", updateRet := HTTPUpdateResult.HTTP_UPDATE_NO_UPDATES }

/-- A button held for ten loop iterations and released at the eleventh read,
with a clock that advances 251 ms between two `millis()` calls. -/
def heldTen : Pins :=
  { pressed := fun k => decide (k < 10), millis := fun k => 251 * k }

/-- A button held for fifty loop iterations, same clock. -/
def heldFifty : Pins :=
  { pressed := fun k => decide (k < 50), millis := fun k => 251 * k }

/-- A device in room `Kitchen` with discovery enabled. -/
def kitchen : Device :=
  { room := "Kitchen", roomsTopic := "espresense/rooms/Kitchen", discovery := true,
    macAddress := "AA:BB:CC:DD:EE:FF", chipModel := "ESP32-D0WDQ6",
    serializeJson := fun doc => toString doc.length }

/-- A broker that accepts every publish. -/
def acceptAll : Broker := fun _ _ _ => true

/-- A broker that rejects every publish. -/
def rejectAll : Broker := fun _ _ _ => false

/-- A broker that accepts exactly the third attempt it sees. -/
def acceptThird : Broker := fun log _ _ => decide (log.length = 2)

/-! ## `indexOf` and containment -/

theorem strstr_eq_none_iff (sub : List Char) :
    ∀ s : List Char, strstr s sub = none ↔ ¬ sub <:+: s := by
  intro s
  induction s with
  | nil =>
    by_cases h : sub = []
    · simp [strstr, h]
    · simp [strstr, h]
  | cons c cs ih =>
    unfold strstr
    by_cases hp : sub.isPrefixOf (c :: cs) = true
    · have hp2 : sub <+: c :: cs := List.isPrefixOf_iff_prefix.mp hp
      simp [hp, hp2.isInfix]
    · have hp2 : ¬ sub <+: c :: cs := fun h => hp (List.isPrefixOf_iff_prefix.mpr h)
      simp only [hp, Bool.false_eq_true, if_false, Option.map_eq_none', ih]
      rw [List.infix_cons_iff]
      tauto

theorem strstr_eq_zero_iff (sub : List Char) :
    ∀ s : List Char, strstr s sub = some 0 ↔ sub <+: s := by
  intro s
  cases s with
  | nil =>
    by_cases h : sub = []
    · simp [strstr, h]
    · simp [strstr, h]
  | cons c cs =>
    unfold strstr
    by_cases hp : sub.isPrefixOf (c :: cs) = true
    · have hp2 : sub <+: c :: cs := List.isPrefixOf_iff_prefix.mp hp
      simp [hp, hp2]
    · have hp2 : ¬ sub <+: c :: cs := fun h => hp (List.isPrefixOf_iff_prefix.mpr h)
      simp [hp, hp2]

theorem indexOf_le_zero_iff (s sub : String) :
    indexOf s sub ≤ 0 ↔ (¬ sub.data <:+: s.data ∨ sub.data <+: s.data) := by
  unfold indexOf
  by_cases hs : s.data.length = 0
  · have hnil : s.data = [] := List.length_eq_zero.mp hs
    simp only [hs, if_true, hnil]
    by_cases h : sub.data = []
    · simp [h]
    · simp [h]
  · simp only [hs, if_false]
    cases h : strstr s.data sub.data with
    | none =>
      have := (strstr_eq_none_iff sub.data s.data).mp h
      simp [this]
    | some i =>
      have hin : sub.data <:+: s.data := by
        by_contra hc
        rw [(strstr_eq_none_iff sub.data s.data).mpr hc] at h
        exact Option.noConfusion h
      cases i with
      | zero =>
        have := (strstr_eq_zero_iff sub.data s.data).mp h
        simp [this]
      | succ j =>
        have hnp : ¬ sub.data <+: s.data := by
          intro hc
          rw [(strstr_eq_zero_iff sub.data s.data).mpr hc] at h
          simp at h
        simp only [hin, not_true_eq_false, hnp, or_self, iff_false, not_le]
        omega

/-! ## The update gate -/

theorem firmwareUpdate_closed (b : Build) (e : FirmwareEnv) (s : State)
    (h : e.autoUpdate = false ∨ e.uptime - s.lastFirmwareCheck < b.CHECK_FOR_UPDATES_INTERVAL) :
    firmwareUpdate b e s = (s, []) := by
  unfold firmwareUpdate
  rcases h with h | h
  · simp [h]
  · simp [h]

theorem firmwareUpdate_flag (b : Build) (e : FirmwareEnv) (s : State) :
    (firmwareUpdate b e s).1.updateInProgress =
      (!((firmwareUpdate b e s).2.any Effect.isTransfer) && s.updateInProgress) := by
  unfold firmwareUpdate
  split
  · simp
  · split
    · simp
    · split
      · simp [Effect.isTransfer]
      · cases hv : b.VERSION with
        | none => simp [pullTransfer, Effect.isTransfer]
        | some v =>
          by_cases hn : notUpdating v e.httpCode e.location = true
          · simp [hn, Effect.isTransfer]
          · simp [hn, pullTransfer, Effect.isTransfer]

theorem firmwareUpdate_last (b : Build) (e : FirmwareEnv) (s : State) :
    ((firmwareUpdate b e s).2.any Effect.isNetwork = false ∧ (firmwareUpdate b e s).1 = s) ∨
    ((firmwareUpdate b e s).2.any Effect.isNetwork = true ∧
      (firmwareUpdate b e s).1.lastFirmwareCheck = e.uptime ∧
      b.CHECK_FOR_UPDATES_INTERVAL ≤ e.uptime - s.lastFirmwareCheck) := by
  unfold firmwareUpdate
  split
  · simp
  · split
    · simp
    · rename_i h1 h2
      right
      have h2 : b.CHECK_FOR_UPDATES_INTERVAL ≤ e.uptime - s.lastFirmwareCheck := not_lt.mp h2
      split
      · simp [Effect.isNetwork, h2]
      · cases hv : b.VERSION with
        | none => simp [pullTransfer, setDisableFromFlag, Effect.isNetwork, h2]
        | some v =>
          by_cases hn : notUpdating v e.httpCode e.location = true
          · simp [hn, Effect.isNetwork, h2]
          · simp [hn, pullTransfer, setDisableFromFlag, Effect.isNetwork, h2]

theorem networkTimes_spaced (b : Build) (es : List FirmwareEnv) :
    ∀ s : State, List.Pairwise (fun x y => x.uptime ≤ y.uptime) es →
      (∀ x ∈ es, s.lastFirmwareCheck ≤ x.uptime) →
      List.Pairwise (fun t1 t2 => b.CHECK_FOR_UPDATES_INTERVAL ≤ t2 - t1) (networkTimes b s es) ∧
      ∀ t ∈ networkTimes b s es, b.CHECK_FOR_UPDATES_INTERVAL ≤ t - s.lastFirmwareCheck := by
  induction es with
  | nil => intro s _ _; simp [networkTimes]
  | cons e es ih =>
    intro s hs hl
    rw [List.pairwise_cons] at hs
    have hle : s.lastFirmwareCheck ≤ e.uptime := hl e (List.mem_cons_self _ _)
    rcases firmwareUpdate_last b e s with ⟨hn, hst⟩ | ⟨hn, hlast, hgate⟩
    · have := ih s hs.2 (fun x hx => hl x (List.mem_cons_of_mem _ hx))
      simpa [networkTimes, hn, hst] using this
    · have ih1 := ih (firmwareUpdate b e s).1 hs.2
        (fun x hx => by rw [hlast]; exact hs.1 x hx)
      simp only [networkTimes, hn, if_true]
      refine ⟨List.pairwise_cons.mpr ⟨?_, ih1.1⟩, ?_⟩
      · intro t ht
        have := ih1.2 t ht
        rw [hlast] at this
        exact this
      · intro t ht
        rcases List.mem_cons.mp ht with rfl | ht
        · exact hgate
        · have := ih1.2 t ht
          rw [hlast] at this
          omega

/-- C1: after every terminal outcome of an update attempt the flag
`updateInProgress` is false: after `onEnd`, after `onError` with any error
code, after a `firmwareUpdate` run that reached the transfer (whatever
`httpUpdate.update` returned), and after a `firmwareUpdate` run entered with
the flag false (which covers each of its early returns). -/
theorem updateInProgress_false_after_termination (b : Build) (e : FirmwareEnv) (s : State)
    (error : Nat) :
    (onEnd s).1.updateInProgress = false ∧
    (onError error s).1.updateInProgress = false ∧
    ((firmwareUpdate b e s).2.any Effect.isTransfer = true →
      (firmwareUpdate b e s).1.updateInProgress = false) ∧
    (s.updateInProgress = false → (firmwareUpdate b e s).1.updateInProgress = false) := by
  refine ⟨rfl, rfl, ?_, ?_⟩
  · intro h
    rw [firmwareUpdate_flag, h]
    rfl
  · intro h
    rw [firmwareUpdate_flag, h]
    simp

/-- Witness of C1: a pull run that transfers during a live OTA session, and a
run that returns early from the boot state. -/
theorem updateInProgress_false_after_termination_witness :
    (firmwareUpdate sampleBuild newerRelease (onStart State.boot).1).2.any Effect.isTransfer = true ∧
    (firmwareUpdate sampleBuild newerRelease (onStart State.boot).1).1.updateInProgress = false ∧
    State.boot.updateInProgress = false ∧
    (firmwareUpdate sampleBuild tooEarly State.boot).1.updateInProgress = false :=
  ⟨by decide,
   (updateInProgress_false_after_termination sampleBuild newerRelease (onStart State.boot).1 0).2.2.1
     (by decide),
   rfl,
   (updateInProgress_false_after_termination sampleBuild tooEarly State.boot 0).2.2.2 rfl⟩

/-- C2 (evaluation at the failing inputs): after `onStart` then `onError`, and
after a `firmwareUpdate` run that performed the transfer, `updateInProgress`
is false while the last value passed to `fingerprints.setDisable` is still
true; `onEnd` is the one terminal path that passes the cleared flag on. -/
theorem sensing_stays_disabled_after_failed_update :
    (onError OTA_AUTH_ERROR (onStart State.boot).1).1.updateInProgress = false ∧
    (onError OTA_AUTH_ERROR (onStart State.boot).1).1.sensingDisabled = true ∧
    (firmwareUpdate sampleBuild newerRelease State.boot).1.updateInProgress = false ∧
    (firmwareUpdate sampleBuild newerRelease State.boot).1.sensingDisabled = true ∧
    (onEnd (onStart State.boot).1).1.sensingDisabled = false := by
  decide

/-- C3 (counterexample): with an OTA session live (`updateInProgress` true
after `onStart`), a `firmwareUpdate` run with auto-update on, the interval
elapsed and a probe redirected to a newer build starts the transfer and
returns with `updateInProgress` false. -/
theorem second_update_not_rejected :
    (onStart State.boot).1.updateInProgress = true ∧
    (firmwareUpdate sampleBuild newerRelease (onStart State.boot).1).2.any Effect.isTransfer = true ∧
    (firmwareUpdate sampleBuild newerRelease (onStart State.boot).1).1.updateInProgress = false := by
  decide

/-- C3 (amended): with `updateInProgress` true, neither origin is refused,
because neither reads the flag. `onStart` makes the same calls as from the boot
state and only sets the sensing-disable flag; the `onEnd` or `onError` that
follows it clears the flag. `firmwareUpdate` makes the same calls as with the
flag false. When auto-update is off or the interval has not elapsed it does
nothing; when `http.begin` fails or the probe says "not updating" it only
stores the timestamp; in all these cases no transfer starts and the flag stays
true. When auto-update is on, the interval has elapsed, `http.begin` succeeds
and the probe does not say "not updating", it starts the transfer and returns
with the flag false and sensing disabled. -/
theorem live_session_second_start (b : Build) (e : FirmwareEnv) (s : State)
    (hlive : s.updateInProgress = true) :
    ((onStart s).2 = (onStart State.boot).2 ∧
      (onStart s).1 = { s with sensingDisabled := true } ∧
      (onEnd (onStart s).1).1.updateInProgress = false ∧
      ∀ error, (onError error (onStart s).1).1.updateInProgress = false) ∧
    (firmwareUpdate b e s).2 = (firmwareUpdate b e { s with updateInProgress := false }).2 ∧
    ((e.autoUpdate = false ∨ e.uptime - s.lastFirmwareCheck < b.CHECK_FOR_UPDATES_INTERVAL) →
      firmwareUpdate b e s = (s, [])) ∧
    (e.autoUpdate = true → b.CHECK_FOR_UPDATES_INTERVAL ≤ e.uptime - s.lastFirmwareCheck →
      (e.beginOk = false ∨
        (∃ v, b.VERSION = some v ∧ notUpdating v e.httpCode e.location = true)) →
      (firmwareUpdate b e s).2.any Effect.isTransfer = false ∧
      (firmwareUpdate b e s).1 = { s with lastFirmwareCheck := e.uptime } ∧
      (firmwareUpdate b e s).1.updateInProgress = true) ∧
    (e.autoUpdate = true → b.CHECK_FOR_UPDATES_INTERVAL ≤ e.uptime - s.lastFirmwareCheck →
      e.beginOk = true → (∀ v, b.VERSION = some v → notUpdating v e.httpCode e.location = false) →
      (firmwareUpdate b e s).2.any Effect.isTransfer = true ∧
      (firmwareUpdate b e s).1.updateInProgress = false ∧
      (firmwareUpdate b e s).1.sensingDisabled = true) := by
  refine ⟨⟨rfl, ?_, rfl, fun _ => rfl⟩, ?_, firmwareUpdate_closed b e s, ?_, ?_⟩
  · cases s
    simp only at hlive
    simp [onStart, setDisableFromFlag, hlive]
  · unfold firmwareUpdate
    simp only []
    split
    · rfl
    · split
      · rfl
      · split
        · rfl
        · split
          · split <;> simp [pullTransfer]
          · simp [pullTransfer]
  · intro ha hi hstop
    have hi2 : ¬ e.uptime - s.lastFirmwareCheck < b.CHECK_FOR_UPDATES_INTERVAL := not_lt.mpr hi
    have key : (firmwareUpdate b e s).2.any Effect.isTransfer = false ∧
        (firmwareUpdate b e s).1 = { s with lastFirmwareCheck := e.uptime } := by
      unfold firmwareUpdate
      rcases hstop with hb | ⟨v, hv, hn⟩
      · simp [ha, hi2, hb, Effect.isTransfer]
      · by_cases hb : e.beginOk = true
        · simp [ha, hi2, hb, hv, hn, Effect.isTransfer]
        · have hb : e.beginOk = false := by simpa using hb
          simp [ha, hi2, hb, Effect.isTransfer]
    refine ⟨key.1, key.2, ?_⟩
    rw [key.2]
    exact hlive
  · intro ha hi hb hv
    have hi2 : ¬ e.uptime - s.lastFirmwareCheck < b.CHECK_FOR_UPDATES_INTERVAL := not_lt.mpr hi
    unfold firmwareUpdate
    cases hv2 : b.VERSION with
    | none => simp [ha, hi2, hb, pullTransfer, setDisableFromFlag, Effect.isTransfer]
    | some v => simp [ha, hi2, hb, hv v hv2, pullTransfer, setDisableFromFlag, Effect.isTransfer]

/-- Witness of C3 (amended): from the state a live OTA session leaves, a run
before the interval, a run whose `http.begin` fails, a run whose probe finds
the running version, and a run whose probe finds a newer build. -/
theorem live_session_second_start_witness :
    (onStart State.boot).1.updateInProgress = true ∧
    firmwareUpdate sampleBuild tooEarly (onStart State.boot).1 = ((onStart State.boot).1, []) ∧
    (firmwareUpdate sampleBuild beginFails (onStart State.boot).1).1.updateInProgress = true ∧
    (firmwareUpdate sampleBuild alreadyCurrent (onStart State.boot).1).1.updateInProgress = true ∧
    (firmwareUpdate sampleBuild newerRelease (onStart State.boot).1).1.updateInProgress = false :=
  ⟨by decide,
   (live_session_second_start sampleBuild tooEarly (onStart State.boot).1 (by decide)).2.2.1
     (Or.inr (by decide)),
   ((live_session_second_start sampleBuild beginFails (onStart State.boot).1
     (by decide)).2.2.2.1 (by decide) (by decide) (Or.inl (by decide))).2.2,
   ((live_session_second_start sampleBuild alreadyCurrent (onStart State.boot).1
     (by decide)).2.2.2.1 (by decide) (by decide)
       (Or.inr ⟨"v1.0", by decide, by decide⟩)).2.2,
   ((live_session_second_start sampleBuild newerRelease (onStart State.boot).1
     (by decide)).2.2.2.2 (by decide) (by decide) (by decide) (by decide)).2.1⟩

/-! ## The probe of `firmwareUpdate` -/

theorem firmwareUpdate_transfer_iff (b : Build) (e : FirmwareEnv) (s : State) (v : String)
    (hv : b.VERSION = some v) (ha : e.autoUpdate = true)
    (hi : b.CHECK_FOR_UPDATES_INTERVAL ≤ e.uptime - s.lastFirmwareCheck)
    (hb : e.beginOk = true) :
    (firmwareUpdate b e s).2.any Effect.isTransfer = true ↔
      (300 ≤ e.httpCode ∧ e.httpCode ≤ 400 ∧ indexOf e.location v ≤ 0) := by
  have hi2 : ¬ e.uptime - s.lastFirmwareCheck < b.CHECK_FOR_UPDATES_INTERVAL := not_lt.mpr hi
  unfold firmwareUpdate
  by_cases hn : notUpdating v e.httpCode e.location = true
  · have hn2 := hn
    simp only [notUpdating, Bool.or_eq_true, decide_eq_true_eq] at hn2
    simp only [ha, hi2, hb, hv, hn, Effect.isTransfer, Bool.not_true, if_false, if_true]
    constructor
    · intro h
      simp [Effect.isTransfer] at h
    · intro h
      omega
  · have hn2 := hn
    simp only [notUpdating, Bool.or_eq_true, decide_eq_true_eq] at hn2
    simp only [ha, hi2, hb, hv, hn, Bool.not_true, if_false]
    constructor
    · intro _
      omega
    · intro _
      simp [pullTransfer, Effect.isTransfer]

theorem firmwareUpdate_transfer_iff_contains (b : Build) (e : FirmwareEnv) (s : State)
    (v : String) (hv : b.VERSION = some v) (ha : e.autoUpdate = true)
    (hi : b.CHECK_FOR_UPDATES_INTERVAL ≤ e.uptime - s.lastFirmwareCheck)
    (hb : e.beginOk = true) :
    (firmwareUpdate b e s).2.any Effect.isTransfer = true ↔
      (300 ≤ e.httpCode ∧ e.httpCode ≤ 400 ∧
        (¬ v.data <:+: e.location.data ∨ v.data <+: e.location.data)) := by
  rw [firmwareUpdate_transfer_iff b e s v hv ha hi hb, indexOf_le_zero_iff]

/-- C5 (evaluation at the failing inputs): with `VERSION` defined as `v1.0`,
a probe answered with status 400 (outside `[300,400)`) starts the transfer, and
so does a probe redirected (302) to a `Location` that has the version string
at position 0; a `Location` that has it at a later position does not. -/
theorem transfer_started_against_probe :
    badRequest.httpCode = 400 ∧
    (firmwareUpdate sampleBuild badRequest State.boot).2.any Effect.isTransfer = true ∧
    indexOf sameVersionAtStart.location "v1.0" = 0 ∧
    (firmwareUpdate sampleBuild sameVersionAtStart State.boot).2.any Effect.isTransfer = true ∧
    (firmwareUpdate sampleBuild
      { sameVersionAtStart with location := "/v1.0/esp32.bin" } State.boot).2.any
        Effect.isTransfer = false := by
  decide

/-! ## Spacing of the network calls of `firmwareUpdate` -/

/-- C8: a `firmwareUpdate` run with `autoUpdate` off, or with
`uptime - lastFirmwareCheck` below `CHECK_FOR_UPDATES_INTERVAL`, makes no call
at all and leaves the state (timestamp and `updateInProgress` included) as it
was; and over every sequence of runs with non-decreasing uptimes, none below
the stored timestamp, any two runs that made a network call are at least
`CHECK_FOR_UPDATES_INTERVAL` seconds of uptime apart. -/
theorem firmwareUpdate_network_calls_spaced (b : Build) (s : State) (e : FirmwareEnv)
    (es : List FirmwareEnv) :
    ((e.autoUpdate = false ∨ e.uptime - s.lastFirmwareCheck < b.CHECK_FOR_UPDATES_INTERVAL) →
      firmwareUpdate b e s = (s, [])) ∧
    (List.Pairwise (fun x y => x.uptime ≤ y.uptime) es →
      (∀ x ∈ es, s.lastFirmwareCheck ≤ x.uptime) →
      List.Pairwise (fun t1 t2 => b.CHECK_FOR_UPDATES_INTERVAL ≤ t2 - t1)
        (networkTimes b s es)) :=
  ⟨firmwareUpdate_closed b e s, fun h1 h2 => (networkTimes_spaced b es s h1 h2).1⟩

/-- Witness of C8: runs at uptimes 100, 600, 700, 900 with a 300 second
interval make network calls at 600 and 900 only. -/
theorem firmwareUpdate_network_calls_spaced_witness :
    firmwareUpdate sampleBuild tooEarly State.boot = (State.boot, []) ∧
    networkTimes sampleBuild State.boot [tooEarly, newerRelease, soonAfter, oneIntervalLater] =
      [600, 900] ∧
    List.Pairwise (fun t1 t2 => sampleBuild.CHECK_FOR_UPDATES_INTERVAL ≤ t2 - t1)
      (networkTimes sampleBuild State.boot [tooEarly, newerRelease, soonAfter, oneIntervalLater]) :=
  ⟨(firmwareUpdate_network_calls_spaced sampleBuild State.boot tooEarly
      [tooEarly, newerRelease, soonAfter, oneIntervalLater]).1 (Or.inr (by decide)),
   by decide,
   (firmwareUpdate_network_calls_spaced sampleBuild State.boot tooEarly
      [tooEarly, newerRelease, soonAfter, oneIntervalLater]).2 (by decide) (by decide)⟩

/-! ## `resetReason` -/

/-- C7 (counterexample): `NO_MEAN` is an enumerator of `RESET_REASON`, the
`switch` has no `case` for it, and `resetReason` gives it the label
`Unknown`; so not every defined constant gets a label other than `Unknown`. -/
theorem resetReason_no_mean_unknown :
    resetReason RESET_REASON.NO_MEAN.code = "Unknown" ∧
    ¬ ∀ r : RESET_REASON, resetReason r.code ≠ "Unknown" := by
  refine ⟨by decide, fun h => h RESET_REASON.NO_MEAN (by decide)⟩

/-- C7 (amended): `resetReason` is a total function that gives every
enumerator of `RESET_REASON` other than `NO_MEAN` a label different from
`Unknown`, gives `NO_MEAN` the label `Unknown`, gives two distinct enumerators
(`NO_MEAN` included) two distinct labels, and gives every code that is the
value of no enumerator the label `Unknown`. -/
theorem resetReason_labels :
    (∀ r : RESET_REASON, r ≠ RESET_REASON.NO_MEAN → resetReason r.code ≠ "Unknown") ∧
    resetReason RESET_REASON.NO_MEAN.code = "Unknown" ∧
    (∀ r q : RESET_REASON, r ≠ q → resetReason r.code ≠ resetReason q.code) ∧
    (∀ c : Nat, (∀ r : RESET_REASON, r.code ≠ c) → resetReason c = "Unknown") := by
  refine ⟨?_, by decide, ?_, ?_⟩
  · intro r hr
    cases r <;> first | exact absurd rfl hr | decide
  · intro r q hrq
    cases r <;> cases q <;> first | exact absurd rfl hrq | decide
  · intro c hc
    have h1 := hc RESET_REASON.POWERON_RESET
    have h2 := hc RESET_REASON.SW_RESET
    have h3 := hc RESET_REASON.OWDT_RESET
    have h4 := hc RESET_REASON.DEEPSLEEP_RESET
    have h5 := hc RESET_REASON.SDIO_RESET
    have h6 := hc RESET_REASON.TG0WDT_SYS_RESET
    have h7 := hc RESET_REASON.TG1WDT_SYS_RESET
    have h8 := hc RESET_REASON.RTCWDT_SYS_RESET
    have h9 := hc RESET_REASON.INTRUSION_RESET
    have h10 := hc RESET_REASON.TGWDT_CPU_RESET
    have h11 := hc RESET_REASON.SW_CPU_RESET
    have h12 := hc RESET_REASON.RTCWDT_CPU_RESET
    have h13 := hc RESET_REASON.EXT_CPU_RESET
    have h14 := hc RESET_REASON.RTCWDT_BROWN_OUT_RESET
    have h15 := hc RESET_REASON.RTCWDT_RTC_RESET
    simp only [resetReason, Ne.symm h1, Ne.symm h2, Ne.symm h3, Ne.symm h4, Ne.symm h5,
      Ne.symm h6, Ne.symm h7, Ne.symm h8, Ne.symm h9, Ne.symm h10, Ne.symm h11, Ne.symm h12,
      Ne.symm h13, Ne.symm h14, Ne.symm h15, if_false]

/-- Witness of C7 (amended): a named enumerator, two enumerators with similar
labels, and the two codes 2 and 17 that are the value of no enumerator. -/
theorem resetReason_labels_witness :
    resetReason RESET_REASON.RTCWDT_BROWN_OUT_RESET.code ≠ "Unknown" ∧
    resetReason RESET_REASON.SW_RESET.code ≠ resetReason RESET_REASON.SW_CPU_RESET.code ∧
    resetReason 2 = "Unknown" ∧ resetReason 17 = "Unknown" :=
  ⟨resetReason_labels.1 RESET_REASON.RTCWDT_BROWN_OUT_RESET (by decide),
   resetReason_labels.2.2.1 RESET_REASON.SW_RESET RESET_REASON.SW_CPU_RESET (by decide),
   resetReason_labels.2.2.2 2 (by intro r; cases r <;> decide),
   resetReason_labels.2.2.2 17 (by intro r; cases r <;> decide)⟩

/-! ## `spiffsInit` -/

theorem replicate_snoc_connecting (n : Nat) :
    BootEffect.pinModeInput :: List.replicate n BootEffect.displayConnecting ++
        [BootEffect.displayConnecting] =
      BootEffect.pinModeInput :: List.replicate (n + 1) BootEffect.displayConnecting := by
  rw [List.replicate_succ']
  simp

theorem spiffsLoop_sound (p : Pins) :
    ∀ (fuel : Nat) (d : Debounce) (r : SpiffsResult), d.flashes ≤ 10 →
      d.effects = BootEffect.pinModeInput :: List.replicate d.flashes BootEffect.displayConnecting →
      spiffsLoop p fuel d = some r →
      r.flashes ≤ 11 ∧ r.effects = spiffsTrace r.flashes := by
  intro fuel
  induction fuel with
  | zero => intro d r _ _ h; simp [spiffsLoop] at h
  | succ n ih =>
    intro d r hf he h
    unfold spiffsLoop at h
    split at h
    · split at h
      · simp only at h
        split at h
        · rename_i hgt
          have h11 : d.flashes = 10 := by omega
          simp only [Option.some.injEq] at h
          subst h
          simp [spiffsTrace, h11, he, List.replicate_succ']
        · rename_i hle
          refine ih _ r (by simpa using hle) ?_ h
          simp only [he]
          exact replicate_snoc_connecting d.flashes
      · exact ih { d with reads := d.reads + 1, ticks := d.ticks + 1 } r hf he h
    · simp only [Option.some.injEq] at h
      subst h
      refine ⟨by simp; omega, ?_⟩
      have : ¬ d.flashes > 10 := by omega
      simp [spiffsTrace, he, this]

theorem spiffsLoop_returns (p : Pins) (k : Nat) (hk : p.pressed k = false) :
    ∀ (fuel : Nat) (d : Debounce), d.reads ≤ k → k < d.reads + fuel →
      ∃ r, spiffsLoop p fuel d = some r := by
  intro fuel
  induction fuel with
  | zero => intro d h1 h2; omega
  | succ n ih =>
    intro d h1 h2
    unfold spiffsLoop
    by_cases hp : p.pressed d.reads = true
    · have hne : d.reads ≠ k := by
        intro h
        rw [h, hk] at hp
        exact Bool.noConfusion hp
      simp only [hp, if_true]
      split
      · split
        · exact ⟨_, rfl⟩
        · exact ih _ (by simp; omega) (by simp; omega)
      · exact ih _ (by simp; omega) (by simp; omega)
    · simp [hp]

/-- C4 (counterexample): a button held until `flashes` has been incremented
ten times and then released: `spiffsInit` returns with `flashes = 10`, makes no
`SPIFFS.format` call and ends in the normal `SPIFFS.begin(true)`. -/
theorem ten_samples_do_not_format :
    spiffsInit heldTen 11 =
      some { flashes := 10,
             effects := BootEffect.pinModeInput ::
               List.replicate 10 BootEffect.displayConnecting ++ [BootEffect.spiffsBegin true] } ∧
    ∀ r, spiffsInit heldTen 11 = some r → BootEffect.spiffsFormat ∉ r.effects := by
  decide

/-- C4 (amended): when the button is released at some read, `spiffsInit`
returns; it has counted at most 11 debounced samples, and its calls are
`pinMode`, one `Display.connecting` per counted sample, and then the erase
sequence with `SPIFFS.format` exactly when the count reached 11 (`flashes > 10`),
else only the normal `SPIFFS.begin(true)`. The same shape holds for every run
that returns, whatever the fuel. -/
theorem spiffsInit_formats_at_eleven (p : Pins) (k : Nat) (hk : p.pressed k = false) :
    (∃ r, spiffsInit p (k + 1) = some r ∧ r.flashes ≤ 11 ∧
      r.effects = spiffsTrace r.flashes ∧
      (BootEffect.spiffsFormat ∈ r.effects ↔ r.flashes = 11) ∧
      (r.flashes ≤ 10 → r.effects.getLast? = some (BootEffect.spiffsBegin true))) ∧
    (∀ fuel r, spiffsInit p fuel = some r →
      r.flashes ≤ 11 ∧ r.effects = spiffsTrace r.flashes) := by
  refine ⟨?_, fun fuel r h => spiffsLoop_sound p fuel _ r (Nat.zero_le _) (by simp) h⟩
  obtain ⟨r, hr⟩ := spiffsLoop_returns p k hk (k + 1)
    { reads := 0, ticks := 1, lastDebounceTime := p.millis32 0, flashes := 0,
      effects := [BootEffect.pinModeInput] } (Nat.zero_le _) (by simp)
  have hs := spiffsLoop_sound p (k + 1) _ r (Nat.zero_le _) (by simp) hr
  refine ⟨r, hr, hs.1, hs.2, ?_, ?_⟩
  · rw [hs.2]
    by_cases h : r.flashes > 10
    · have : r.flashes = 11 := by have := hs.1; omega
      simp [spiffsTrace, this]
    · have : r.flashes ≠ 11 := by omega
      simp [spiffsTrace, h, this, List.mem_replicate]
  · intro h
    rw [hs.2]
    have : ¬ r.flashes > 10 := by omega
    simp only [spiffsTrace, this, if_false]
    exact List.getLast?_concat _

/-- Witness of C4 (amended): a button held for fifty reads; the run returns
with `flashes = 11` after formatting. -/
theorem spiffsInit_formats_at_eleven_witness :
    heldFifty.pressed 50 = false ∧
    (spiffsInit heldFifty 51).map (fun r => r.flashes) = some 11 ∧
    ∃ r, spiffsInit heldFifty 51 = some r ∧ r.flashes ≤ 11 ∧
      r.effects = spiffsTrace r.flashes ∧
      (BootEffect.spiffsFormat ∈ r.effects ↔ r.flashes = 11) ∧
      (r.flashes ≤ 10 → r.effects.getLast? = some (BootEffect.spiffsBegin true)) :=
  ⟨by decide, by decide, (spiffsInit_formats_at_eleven heldFifty 50 (by decide)).1⟩

/-! ## Discovery publishes -/

theorem publishRetry_rejected (br : Broker) (t p : String) :
    ∀ (n : Nat) (log : List Attempt),
      (∀ j < n, br (log ++ List.replicate j ⟨t, p, false⟩) t p = false) →
      publishRetry br t p n log = (false, log ++ List.replicate n ⟨t, p, false⟩) := by
  intro n
  induction n with
  | zero => intro log _; simp [publishRetry]
  | succ n ih =>
    intro log h
    have h0 : br log t p = false := by simpa using h 0 (Nat.succ_pos n)
    have hstep : ∀ j < n,
        br (log ++ [⟨t, p, false⟩] ++ List.replicate j ⟨t, p, false⟩) t p = false := by
      intro j hj
      have := h (j + 1) (Nat.succ_lt_succ hj)
      simpa [List.replicate_succ] using this
    simp only [publishRetry, publish, h0, Bool.false_eq_true, if_false]
    rw [ih _ hstep]
    simp [List.replicate_succ]

theorem publishRetry_accepted (br : Broker) (t p : String) :
    ∀ (n : Nat) (log : List Attempt) (k : Nat), k < n →
      (∀ j < k, br (log ++ List.replicate j ⟨t, p, false⟩) t p = false) →
      br (log ++ List.replicate k ⟨t, p, false⟩) t p = true →
      publishRetry br t p n log =
        (true, log ++ List.replicate k ⟨t, p, false⟩ ++ [⟨t, p, true⟩]) := by
  intro n
  induction n with
  | zero => intro log k hk; omega
  | succ n ih =>
    intro log k hk hrej hacc
    cases k with
    | zero =>
      have h0 : br log t p = true := by simpa using hacc
      simp [publishRetry, publish, h0]
    | succ k =>
      have h0 : br log t p = false := by simpa using hrej 0 (Nat.succ_pos k)
      have hstep : ∀ j < k,
          br (log ++ [⟨t, p, false⟩] ++ List.replicate j ⟨t, p, false⟩) t p = false := by
        intro j hj
        have := hrej (j + 1) (Nat.succ_lt_succ hj)
        simpa [List.replicate_succ] using this
      have hacc2 : br (log ++ [⟨t, p, false⟩] ++ List.replicate k ⟨t, p, false⟩) t p = true := by
        simpa [List.replicate_succ] using hacc
      simp only [publishRetry, publish, h0, Bool.false_eq_true, if_false]
      rw [ih _ k (Nat.lt_of_succ_lt_succ hk) hstep hacc2]
      simp [List.replicate_succ]

theorem publishRetry_topics (br : Broker) (t p : String) :
    ∀ (n : Nat) (log : List Attempt), 0 < n →
      ∃ new : List Attempt, (publishRetry br t p n log).2 = log ++ new ∧
        1 ≤ new.length ∧ new.length ≤ n ∧ new.map Attempt.topic = List.replicate new.length t ∧
        ((∀ l a b, br l a b = true) → new.length = 1) := by
  intro n
  induction n with
  | zero => intro log h; omega
  | succ n ih =>
    intro log _
    by_cases h0 : br log t p = true
    · refine ⟨[⟨t, p, true⟩], ?_, by simp, by simp, by simp, fun _ => rfl⟩
      simp [publishRetry, publish, h0]
    · have h0 : br log t p = false := by simpa using h0
      cases n with
      | zero =>
        refine ⟨[⟨t, p, false⟩], ?_, by simp, by simp, by simp, fun _ => rfl⟩
        simp [publishRetry, publish, h0]
      | succ m =>
        obtain ⟨new, h1, h2, h3, h4, _⟩ := ih (log ++ [⟨t, p, false⟩]) (Nat.succ_pos m)
        refine ⟨⟨t, p, false⟩ :: new, ?_, by simp, by simp; omega, ?_, ?_⟩
        · rw [publishRetry]
          simp only [publish, h0, Bool.false_eq_true, if_false]
          rw [h1]
          simp
        · simp [List.replicate_succ, h4]
        · intro hall
          rw [hall] at h0
          exact Bool.noConfusion h0

theorem string_append_right_ne (a b c : String) (h : b ≠ c) : a ++ b ≠ a ++ c := by
  intro he
  apply h
  have := congrArg String.data he
  exact String.ext (by simpa using this)

theorem bme_topics_distinct (r : String) :
    temperatureTopic r ≠ humidityTopic r ∧ temperatureTopic r ≠ pressureTopic r ∧
    humidityTopic r ≠ pressureTopic r := by
  unfold temperatureTopic humidityTopic pressureTopic
  simp only [String.append_assoc]
  refine ⟨?_, ?_, ?_⟩ <;>
  · apply string_append_right_ne
    apply string_append_right_ne
    decide

/-- C6: the publish retry of `commonDiscovery` is bounded by 10 attempts. If
the broker rejects the first `k - 1` attempts and accepts the `k`-th, with
`1 ≤ k ≤ 10`, `commonDiscovery` returns true after exactly those `k` attempts;
if it rejects ten attempts in a row, `commonDiscovery` returns false after
exactly those ten attempts. -/
theorem commonDiscovery_retry_bound (dev : Device) (br : Broker) (doc : JsonDocument)
    (topic : String) (log : List Attempt) :
    (∀ k, 1 ≤ k → k ≤ 10 →
      (∀ j < k - 1,
        br (log ++ List.replicate j ⟨topic, discoveryBuffer dev doc, false⟩) topic
          (discoveryBuffer dev doc) = false) →
      br (log ++ List.replicate (k - 1) ⟨topic, discoveryBuffer dev doc, false⟩) topic
          (discoveryBuffer dev doc) = true →
      commonDiscovery dev br doc topic log =
        (true, log ++ List.replicate (k - 1) ⟨topic, discoveryBuffer dev doc, false⟩ ++
          [⟨topic, discoveryBuffer dev doc, true⟩])) ∧
    ((∀ j < 10,
        br (log ++ List.replicate j ⟨topic, discoveryBuffer dev doc, false⟩) topic
          (discoveryBuffer dev doc) = false) →
      commonDiscovery dev br doc topic log =
        (false, log ++ List.replicate 10 ⟨topic, discoveryBuffer dev doc, false⟩)) := by
  constructor
  · intro k h1 h10 hrej hacc
    exact publishRetry_accepted br topic _ 10 log (k - 1) (by omega) hrej hacc
  · intro hrej
    exact publishRetry_rejected br topic _ 10 log hrej

/-- Witness of C6: a broker accepting the third attempt, and one rejecting
every attempt. -/
theorem commonDiscovery_retry_bound_witness :
    (commonDiscovery kitchen acceptThird [] "t" []).1 = true ∧
    (commonDiscovery kitchen acceptThird [] "t" []).2.length = 3 ∧
    (commonDiscovery kitchen rejectAll [] "t" []).1 = false ∧
    (commonDiscovery kitchen rejectAll [] "t" []).2.length = 10 := by
  have h3 := (commonDiscovery_retry_bound kitchen acceptThird [] "t" []).1 3 (by decide)
    (by decide) (by intro j hj; simp [acceptThird]; omega) (by simp [acceptThird])
  have h10 := (commonDiscovery_retry_bound kitchen rejectAll [] "t" []).2
    (by intro j _; rfl)
  rw [h3, h10]
  simp

/-- C9: with discovery enabled and room `r`, `sendDiscoveryBMESensor` publishes
three discovery documents in the order temperature, humidity, pressure: its
publish attempts go to `homeassistant/sensor/espresence_r/temperature/config`,
then `.../humidity/config`, then `.../pressure/config`, each between one and
ten times (the retry of `commonDiscovery`), exactly once each when the broker
accepts every attempt; the three topics are pairwise distinct for every `r`. -/
theorem sendDiscoveryBMESensor_publishes (dev : Device) (br : Broker) (log : List Attempt)
    (hd : dev.discovery = true) :
    (∃ a b c : Nat, (1 ≤ a ∧ a ≤ 10) ∧ (1 ≤ b ∧ b ≤ 10) ∧ (1 ≤ c ∧ c ≤ 10) ∧
      (∃ new : List Attempt, (sendDiscoveryBMESensor dev br log).2 = log ++ new ∧
        new.map Attempt.topic =
          List.replicate a (temperatureTopic dev.room) ++
          List.replicate b (humidityTopic dev.room) ++
          List.replicate c (pressureTopic dev.room)) ∧
      ((∀ l t p, br l t p = true) → a = 1 ∧ b = 1 ∧ c = 1)) ∧
    temperatureTopic dev.room ≠ humidityTopic dev.room ∧
    temperatureTopic dev.room ≠ pressureTopic dev.room ∧
    humidityTopic dev.room ≠ pressureTopic dev.room := by
  refine ⟨?_, bme_topics_distinct dev.room⟩
  unfold sendDiscoveryBMESensor commonDiscovery
  simp only [hd, Bool.not_true, Bool.false_eq_true, if_false]
  obtain ⟨n1, e1, l1, u1, t1, o1⟩ := publishRetry_topics br (temperatureTopic dev.room)
    (discoveryBuffer dev (bmeDocument dev "°C" "temperature" " Temperature" "_temp"
        "\x7b\x7b value_json.temperature \x7d\x7d")) 10 log (by decide)
  rw [e1]
  obtain ⟨n2, e2, l2, u2, t2, o2⟩ := publishRetry_topics br (humidityTopic dev.room)
    (discoveryBuffer dev (bmeDocument dev "%" "humidity" " Humidity" "_hum"
        "\x7b\x7b value_json.humidity \x7d\x7d")) 10 (log ++ n1) (by decide)
  rw [e2]
  obtain ⟨n3, e3, l3, u3, t3, o3⟩ := publishRetry_topics br (pressureTopic dev.room)
    (discoveryBuffer dev (bmeDocument dev "Pa" "pressure" " Pressure" "_pres"
        "\x7b\x7b value_json.pressure \x7d\x7d")) 10 (log ++ n1 ++ n2) (by decide)
  rw [e3]
  refine ⟨n1.length, n2.length, n3.length, ⟨l1, u1⟩, ⟨l2, u2⟩, ⟨l3, u3⟩,
    ⟨n1 ++ n2 ++ n3, by simp [List.append_assoc], by simp [t1, t2, t3]⟩,
    fun h => ⟨o1 h, o2 h, o3 h⟩⟩

/-- Witness of C9: room `Kitchen` with a broker that accepts every attempt. -/
theorem sendDiscoveryBMESensor_publishes_witness :
    kitchen.discovery = true ∧
    (sendDiscoveryBMESensor kitchen acceptAll []).2.map Attempt.topic =
      ["homeassistant/sensor/espresence_Kitchen/temperature/config",
       "homeassistant/sensor/espresence_Kitchen/humidity/config",
       "homeassistant/sensor/espresence_Kitchen/pressure/config"] ∧
    temperatureTopic "Kitchen" ≠ humidityTopic "Kitchen" :=
  ⟨rfl, by decide, (sendDiscoveryBMESensor_publishes kitchen acceptAll [] rfl).2.1⟩

/-- C10: `sendDiscoveryBMESensor` returns false whenever discovery is enabled,
whatever the broker does, and true exactly when discovery is disabled. -/
theorem sendDiscoveryBMESensor_result (dev : Device) (br : Broker) (log : List Attempt) :
    (sendDiscoveryBMESensor dev br log).1 = !dev.discovery := by
  unfold sendDiscoveryBMESensor
  cases dev.discovery <;> simp

end ESPresense
